import Mathlib

/-!
Verification development for the renogy-bt protocol engine.

The Python sources are embedded shallowly:
* pure helpers become Lean functions on `List Nat` (byte strings) and `ℚ`
  (Python numeric values are modelled with exact rational arithmetic);
* the stateful clients become explicit state-passing step functions; the
  side effects they perform (timer arm/cancel, GATT writes, sleeps,
  callbacks) are recorded as explicit effect traces;
* code paths that raise an uncaught Python exception are modelled with
  `Except`.

`renogybt/Utils.py` is imported by every client but is not part of the
given sources; the handful of helpers it provides (`bytes_to_int`,
`crc16_modbus`, `int_to_bytes`, `format_temperature`) are modelled from
the specification (sections 4.1, 4.2 and 4.5) and are marked as such.
-/

namespace RenogyBT

/-- Modelled from the spec: `Utils.bytes_to_int` is absent from the sources.
Per the data model and section 4.5, multi-byte register values are read
big-endian (`addrHi` before `addrLo` in section 4.2's request layout);
this helper returns the raw unsigned value of the byte slice
`bs[offset : offset+length]` (Python slicing: a short or empty slice is
read as-is, an empty slice yields 0). -/
def bytes_to_uint (bs : List Nat) (offset length : Nat) : Nat :=
  ((bs.drop offset).take length).foldl (fun a b => a * 256 + b) 0

/-- Modelled from the spec: `Utils.bytes_to_int` is absent from the sources.
Per section 4.5 a field is the raw big-endian register value, two's
complement interpreted when the field is signed, multiplied by the decode
scale; Python floats are modelled as exact rationals. -/
def bytes_to_int (bs : List Nat) (offset length : Nat) (signed : Bool) (scale : ℚ) : ℚ :=
  let sl := (bs.drop offset).take length
  let raw := bytes_to_uint bs offset length
  let v : Int :=
    if signed ∧ 2 ^ (8 * sl.length - 1) ≤ raw then (raw : Int) - 2 ^ (8 * sl.length) else raw
  (v : ℚ) * scale

/-- Modelled from the spec: `Utils.crc16_modbus` is absent from the sources.
Section 4.1: polynomial 0xA001, initial register 0xFFFF, each input byte
xored into the register and processed LSB-first through 8 shift/xor
steps; result returned low byte first. -/
def crc16_update (crc b : Nat) : Nat :=
  (List.range 8).foldl
    (fun c _ => if c % 2 = 1 then Nat.xor (c / 2) 0xA001 else c / 2)
    (Nat.xor crc b)

/-- Modelled from the spec: CRC16 over a byte string, low byte first (section 4.1). -/
def crc16_modbus (bs : List Nat) : List Nat :=
  let crc := bs.foldl crc16_update 0xFFFF
  [crc % 256, crc / 256]

/-- Modelled from the spec: `Utils.int_to_bytes` is absent from the sources.
Section 4.2's request layout (`addrHi` at position 0, `addrLo` at
position 1) fixes it as big-endian 16-bit byte extraction. -/
def int_to_bytes (v pos : Nat) : Nat :=
  if pos = 0 then v / 256 % 256 else v % 256

/-- Values stored in a result map: Python numbers (as exact rationals) or
strings (the `__device` / `__client` tags). -/
inductive Value where
  | num (q : ℚ)
  | str (s : String)
deriving DecidableEq

/-- A result map, modelling a Python dict with string keys: an association
list in insertion order. -/
abbrev DataMap := List (String × Value)

/-- Python dict assignment `m[k] = v`: replace in place if the key exists,
otherwise append. -/
def setKey (m : DataMap) (k : String) (v : Value) : DataMap :=
  if m.any (fun p => p.1 = k) then m.map (fun p => if p.1 = k then (k, v) else p)
  else m ++ [(k, v)]

/-- Python `m.update(news)`: assign every pair of `news` in order. -/
def updateMap (m news : DataMap) : DataMap :=
  news.foldl (fun acc kv => setKey acc kv.1 kv.2) m

/-- Python `m.get(k)` on the association list. -/
def lookupMap (m : DataMap) (k : String) : Option Value :=
  (m.find? (fun p => p.1 = k)).map (fun p => p.2)

/-- Observable side effects of the clients, recorded in program order:
timer operations, GATT writes, sleeps and consumer callbacks. -/
inductive Eff where
  | cancelTimeout : Eff
  | armTimeout (seconds : Nat) : Eff
  | write (req : List Nat) : Eff
  | sleep (seconds : ℚ) : Eff
  | dataCallback (m : DataMap) : Eff
  | errorCallback : Eff
  | logError : Eff
  | resolveFuture : Eff
deriving DecidableEq

/-! ### EcoWorthyClient (vendor-frame protocol) -/

/-- `EcoWorthyClient.FRAME_HEADER` (0xDD). -/
def FRAME_HEADER : Nat := 0xDD

/-- `EcoWorthyClient.FRAME_END` (0x77). -/
def FRAME_END : Nat := 0x77

/-- `EcoWorthyClient.COMMAND_READ_BASIC`. -/
def COMMAND_READ_BASIC : List Nat := [0xdd, 0xa5, 0x03, 0x00, 0xff, 0xfd, 0x77]

/-- `EcoWorthyClient.COMMAND_READ_CELLV`. -/
def COMMAND_READ_CELLV : List Nat := [0xdd, 0xa5, 0x04, 0x00, 0xff, 0xfc, 0x77]

/-- `EcoWorthyClient.READ_TIMEOUT` (seconds). -/
def EW_READ_TIMEOUT : Nat := 15

/-- Configuration read by `EcoWorthyClient`: `data.temperature_unit`,
`data.read_cellv` (raw string, `None` when the key is absent — the code
reads it with `.get`, not `.getboolean`), `data.enable_polling`,
`data.poll_interval`. -/
structure EWConfig where
  tempUnit : String
  readCellv : Option String
  polling : Bool
  pollInterval : Nat
deriving DecidableEq

/-- Mutable state of `EcoWorthyClient`: the frame assembly buffer
(`self.frame`, `None` when idle), the accumulated result map
(`self.data`) and the two fetched flags. -/
structure EWState where
  frame : Option (List Nat)
  data : DataMap
  fetched_basics : Bool
  fetched_cellv : Bool
deriving DecidableEq

/-- Python truthiness of `config["data"].get("read_cellv")`: an absent key
gives `None` (falsy); a present value is a string, truthy iff nonempty.
In particular the string `"false"` is truthy. -/
def truthy : Option String → Bool
  | none => false
  | some s => s ≠ ""

/-- Python `str.strip()` used on the configured temperature unit (line
141): leading and trailing ASCII whitespace is removed. -/
def isPySpace (ch : Char) : Bool :=
  ch = ' ' ∨ ch = '\t' ∨ ch = '\n' ∨ ch = '\r' ∨ ch = '\x0b' ∨ ch = '\x0c'

/-- Python `s.strip()` on a string. -/
def pystrip (s : String) : String :=
  String.mk (((s.data.dropWhile isPySpace).reverse.dropWhile isPySpace).reverse)

/-- Modelled from the spec: `Utils.format_temperature` is absent from the
sources; it converts the Celsius value to Fahrenheit for the `"F"`
configuration (standard conversion). No claim depends on its value. -/
def format_temperature (c : ℚ) : ℚ :=
  c * 9 / 5 + 32

/-- The basic-info field decoder, `EcoWorthyClient.on_data_received` lines
135-145: fixed offsets into the payload, scales 0.01 / 0.1, signed
current, temperature shifted by 273.1, derived power and guarded derived
percentage. -/
def decode_basic_info (tempUnit : String) (payload : List Nat) : DataMap :=
  let voltage := bytes_to_int payload 0 2 false (1/100)
  let current := bytes_to_int payload 2 2 true (1/100)
  let capacity_remaining := bytes_to_int payload 4 2 false (1/100)
  let capacity := bytes_to_int payload 4 2 false (1/100)
  let temp0 := bytes_to_int payload 23 2 false (1/10) - 2731/10
  let temperature := if pystrip tempUnit = "F" then format_temperature temp0 else temp0
  let power := voltage * current
  let percentage := if capacity = 0 then 0 else 100 * capacity_remaining / capacity
  [("voltage", Value.num voltage),
   ("current", Value.num current),
   ("capacity_remaining", Value.num capacity_remaining),
   ("capacity", Value.num capacity),
   ("temperature", Value.num temperature),
   ("power", Value.num power),
   ("percentage", Value.num percentage)]

/-- The cell-voltage decoder, `EcoWorthyClient.on_data_received` lines
152-155: `declaredLength / 2` cells, each an unsigned 2-byte value at
2-byte stride, scale 0.001, keyed `voltage_cell1`, `voltage_cell2`, …. -/
def decode_cellv (data_length : Nat) (payload : List Nat) : DataMap :=
  (List.range (data_length / 2)).map
    (fun i => ("voltage_cell" ++ toString (i + 1),
               Value.num (bytes_to_int payload (2 * i) 2 false (1/1000))))

/-- Python's division, raising `ZeroDivisionError` on a zero denominator. -/
def pydiv (a b : ℚ) : Except String ℚ :=
  if b = 0 then Except.error "ZeroDivisionError" else Except.ok (a / b)

/-- The percentage expression of `EcoWorthyClient.on_data_received` line
145, with the division given Python's fault semantics: the conditional
expression evaluates `100.0 * remaining / total` only when the guard
`capacity == 0` fails. -/
def percentage_expr (capacity_remaining capacity : ℚ) : Except String ℚ :=
  if capacity = 0 then Except.ok 0 else pydiv (100 * capacity_remaining) capacity

/-- `EcoWorthyClient.fetch_next`: sleep 0.5 s, then (1) if basic info is
not fetched, arm the read timeout and write the basic command; (2) else
if cell voltages are not fetched and `read_cellv` is truthy, arm and
write the cell-voltage command; (3) else deliver the result map, reset
both flags and the map, and when polling is enabled sleep the poll
interval and re-enter (the re-entry finds `fetched_basics = False` and
issues the basic command). Returns the effect trace and the new state. -/
def ew_fetch_next (cfg : EWConfig) (st : EWState) : List Eff × EWState :=
  if st.fetched_basics = false then
    ([Eff.sleep (1/2), Eff.armTimeout EW_READ_TIMEOUT, Eff.write COMMAND_READ_BASIC], st)
  else if st.fetched_cellv = false ∧ truthy cfg.readCellv then
    ([Eff.sleep (1/2), Eff.armTimeout EW_READ_TIMEOUT, Eff.write COMMAND_READ_CELLV], st)
  else
    let st2 : EWState := ⟨st.frame, [], false, false⟩
    let pollEffs :=
      if cfg.polling then
        [Eff.sleep (cfg.pollInterval : ℚ), Eff.sleep (1/2),
         Eff.armTimeout EW_READ_TIMEOUT, Eff.write COMMAND_READ_BASIC]
      else []
    ([Eff.sleep (1/2), Eff.dataCallback st.data] ++ pollEffs, st2)

/-- Output of one `EcoWorthyClient.on_data_received` call: the new client
state, the `(operation, declaredLength, payload)` triple handed to the
frame decoder (when the frame completed), and the effect trace. -/
structure EWOut where
  state : EWState
  handed : Option (Nat × Nat × List Nat)
  effs : List Eff
deriving DecidableEq

/-- Frame completion, `EcoWorthyClient.on_data_received` lines 128-162:
operation and declared length are read from bytes 1 and 3 of the
completed frame `f`, the payload is `f[4:-3]`, the operation dispatches
to the basic-info or cell-voltage decoder (each decode sets its fetched
flag, merges its fields and calls `fetch_next`), an unknown operation is
only logged, and the frame buffer returns to idle. -/
def ew_complete (cfg : EWConfig) (st : EWState) (f : List Nat) : EWOut :=
  let op := bytes_to_uint f 1 1
  let dl := bytes_to_uint f 3 1
  let payload := (f.drop 4).take (f.length - 7)
  if op = 3 then
    let st1 : EWState :=
      ⟨none, updateMap st.data (decode_basic_info cfg.tempUnit payload),
       true, st.fetched_cellv⟩
    let next := ew_fetch_next cfg st1
    ⟨next.2, some (op, dl, payload), Eff.cancelTimeout :: next.1⟩
  else if op = 4 then
    let st1 : EWState :=
      ⟨none, updateMap st.data (decode_cellv dl payload), st.fetched_basics, true⟩
    let next := ew_fetch_next cfg st1
    ⟨next.2, some (op, dl, payload), Eff.cancelTimeout :: next.1⟩
  else
    ⟨⟨none, st.data, st.fetched_basics, st.fetched_cellv⟩,
     some (op, dl, payload), [Eff.cancelTimeout]⟩

/-- `EcoWorthyClient.on_data_received` lines 110-164. The pending read
timeout is cancelled first.  A delivery starting with the header marker
(re)starts the frame buffer; a non-header delivery is appended when a
frame is being accumulated.  If the delivery's last byte is the end
marker the buffered frame is completed: operation and declared length
are read from bytes 1 and 3, the payload is `frame[4:-3]`, and the
operation dispatches to the basic-info or cell-voltage decoder (each of
which then calls `fetch_next`); an unknown operation is only logged.
When the last byte is the end marker while no frame is buffered
(`self.frame is None`) the code evaluates `bytes_to_int(None, 1, 1)` and
`None[4:-3]` and raises; this is modelled as `Except.error`, as is an
empty delivery (`response[0]` raises `IndexError`). -/
def ew_on_data_received (cfg : EWConfig) (st : EWState) (response : List Nat) :
    Except Unit EWOut :=
  match response.head?, response.getLast? with
  | some h, some l =>
    let frame1 : Option (List Nat) :=
      if h ≠ FRAME_HEADER ∧ st.frame.isSome then some (st.frame.getD [] ++ response)
      else if h = FRAME_HEADER then some response
      else st.frame
    if l = FRAME_END then
      match frame1 with
      | none => Except.error ()
      | some f => Except.ok (ew_complete cfg st f)
    else
      Except.ok ⟨⟨frame1, st.data, st.fetched_basics, st.fetched_cellv⟩,
                 none, [Eff.cancelTimeout]⟩
  | _, _ => Except.error ()

/-- Feed a sequence of transport deliveries through
`EcoWorthyClient.on_data_received`, threading the state and collecting
the triples handed to the frame decoder; an uncaught exception aborts
the run. -/
def ew_run (cfg : EWConfig) (st : EWState) :
    List (List Nat) → Except Unit (EWState × List (Nat × Nat × List Nat))
  | [] => Except.ok (st, [])
  | d :: ds =>
    match ew_on_data_received cfg st d with
    | Except.error e => Except.error e
    | Except.ok out =>
      match ew_run cfg out.state ds with
      | Except.error e => Except.error e
      | Except.ok (st2, hs) => Except.ok (st2, out.handed.toList ++ hs)

/-! ### BaseClient / RenogyClient (register protocol, section poll sequencer) -/

/-- One section descriptor, `{'register': …, 'words': …, 'parser': …}`.
`parseFn` models the section's `parser` entry: `none` for a `None`
parser, otherwise the fields it merges into `self.data` for a given
response frame. -/
structure BCSection where
  register : Nat
  words : Nat
  parseFn : Option (List Nat → DataMap)

/-- Mutable cycle state of `BaseClient`: the section list, the section
index and the accumulated result map. -/
structure BCState where
  sections : List BCSection
  sectionIndex : Nat
  data : DataMap

/-- Configuration and session context read by `BaseClient`: the device
id, the callback tags, the polling switch and interval, and whether a
read timeout is currently armed (`self.read_timeout` is set and not
cancelled). -/
structure BCConfig where
  deviceId : Option Nat
  deviceAlias : String
  clientName : String
  polling : Bool
  pollInterval : Nat
  armed : Bool

/-- `BaseClient.READ_TIMEOUT` (seconds). -/
def BC_READ_TIMEOUT : Nat := 15

/-- `BaseClient.READ_SUCCESS`. -/
def READ_SUCCESS : Nat := 3

/-- `BaseClient.READ_ERROR`. -/
def READ_ERROR : Nat := 131

/-- `BaseClient.create_generic_read_request` (also duplicated verbatim in
`RenogyClient`): `[deviceId, function, addrHi, addrLo, wordsHi, wordsLo]`
followed by the two CRC16 bytes, low byte first. -/
def create_generic_read_request (device_id function regAddr readWrd : Nat) : List Nat :=
  let data := [device_id, function,
               int_to_bytes regAddr 0, int_to_bytes regAddr 1,
               int_to_bytes readWrd 0, int_to_bytes readWrd 1]
  data ++ crc16_modbus data

/-- `BaseClient.read_section`: on the happy path it arms the 15 s read
timeout (`self.loop.call_later`) and then writes the request for the
current section, in that order; a missing device id, an empty section
list or an out-of-range index instead reports an error. -/
def base_read_section (cfg : BCConfig) (st : BCState) : List Eff :=
  if cfg.deviceId = none ∨ st.sections.length = 0 then [Eff.logError, Eff.errorCallback]
  else
    match cfg.deviceId, st.sections[st.sectionIndex]? with
    | some did, some sec =>
      [Eff.armTimeout BC_READ_TIMEOUT,
       Eff.write (create_generic_read_request did 3 sec.register sec.words)]
    | _, _ => [Eff.logError, Eff.errorCallback]

/-- `RenogyClient.read_section` (overriding the base): same guard and
request construction, but it writes the request without arming any
timeout. -/
def renogy_read_section (cfg : BCConfig) (st : BCState) : List Eff :=
  if cfg.deviceId = none ∨ st.sections.length = 0 then [Eff.logError, Eff.errorCallback]
  else
    match cfg.deviceId, st.sections[st.sectionIndex]? with
    | some did, some sec =>
      [Eff.write (create_generic_read_request did 3 sec.register sec.words)]
    | _, _ => [Eff.logError, Eff.errorCallback]

/-- Classification of one response frame by the section poll sequencer. -/
inductive SectionOutcome where
  | parsedAdvance
  | parsedComplete
  | failedAdvance
  | failedComplete
  | unknownIgnored
deriving DecidableEq

/-- Output of one `BaseClient.on_data_received` call. -/
structure BCOut where
  state : BCState
  outcome : SectionOutcome
  effs : List Eff

/-- The parse gate of `BaseClient.on_data_received` lines 111-117: the
section parser runs only when the operation byte equals `READ_SUCCESS`,
the section index is in range, the section's parser is not `None` and
the frame length equals `words * 2 + 5`; it yields the parsed fields,
`none` otherwise. -/
def section_parse_result (st : BCState) (op : Nat) (response : List Nat) : Option DataMap :=
  (st.sections[st.sectionIndex]?).bind (fun sec =>
    sec.parseFn.bind (fun p =>
      if op = READ_SUCCESS ∧ sec.words * 2 + 5 = response.length then some (p response)
      else none))

/-- `BaseClient.on_data_received` lines 106-131.  The pending timeout (if
armed) is cancelled first.  When the operation byte is `READ_SUCCESS` or
`READ_ERROR`: the section parser runs only when the operation byte is 3,
the index is in range, the parser is not `None` and the frame length is
`words*2+5` (any other case only logs a failure); then, if this was the
last section, the index is reset to 0, the tagged result map is
delivered and the map cleared (and polling re-issues section 0 after the
poll interval), else the index advances, a 0.5 s pacing sleep runs and
the next request is issued.  Any other operation byte is logged as
unknown and nothing else happens. -/
def base_on_data_received (cfg : BCConfig) (st : BCState) (response : List Nat) : BCOut :=
  let cancelEffs := if cfg.armed then [Eff.cancelTimeout] else []
  let op := bytes_to_uint response 1 1
  if op = READ_SUCCESS ∨ op = READ_ERROR then
    let parsed := section_parse_result st op response
    let data1 := match parsed with
      | some fs => updateMap st.data fs
      | none => st.data
    if st.sections.length - 1 ≤ st.sectionIndex then
      let delivered :=
        updateMap data1 [("__device", Value.str cfg.deviceAlias), ("__client", Value.str cfg.clientName)]
      let st2 : BCState := ⟨st.sections, 0, []⟩
      let pollEffs :=
        if cfg.polling then Eff.sleep (cfg.pollInterval : ℚ) :: base_read_section cfg st2
        else []
      ⟨st2, if parsed.isSome then SectionOutcome.parsedComplete else SectionOutcome.failedComplete,
       cancelEffs ++ Eff.dataCallback delivered :: pollEffs⟩
    else
      let st2 : BCState := ⟨st.sections, st.sectionIndex + 1, data1⟩
      ⟨st2, if parsed.isSome then SectionOutcome.parsedAdvance else SectionOutcome.failedAdvance,
       cancelEffs ++ Eff.sleep (1/2) :: base_read_section cfg st2⟩
  else
    ⟨st, SectionOutcome.unknownIgnored, cancelEffs⟩

/-- `BaseClient.on_read_timeout` with the `__on_error` it calls: the
timeout is logged, the error callback fires and the session future is
resolved; the cycle state (`section_index`, `data`) is not touched. -/
def base_on_read_timeout (st : BCState) : BCState × List Eff :=
  (st, [Eff.logError, Eff.errorCallback, Eff.resolveFuture])

/-! ### Poll scheduler (`example.py`, `main`) -/

/-- `example.py` lines 58-64: the wait before the next round, in
milliseconds, computed from the configured interval (seconds) and the
round's start and end timestamps (milliseconds):
`max(1000, interval * 1000 + start_time_ms - current_time_ms)`. -/
def wait_time_ms (interval : Nat) (start_time_ms current_time_ms : Int) : Int :=
  max 1000 ((interval : Int) * 1000 + start_time_ms - current_time_ms)

/-! ## Theorems -/

/-- C1: a transport delivery received while the assembler is idle
(`self.frame is None`) whose first byte is not the header marker and
whose last byte equals the end marker is not logged-and-dropped: the
code reaches the frame-completion block with a `None` frame
(`bytes_to_int(None, 1, 1)`, `None[4:-3]`) and raises.  Evaluated here
at the delivery `[0x01, 0x77]` from the idle state: the handler ends in
the modelled exception instead of leaving the state idle. -/
theorem C1_idle_spurious_end_marker_raises :
    ew_on_data_received ⟨"C", none, false, 0⟩ ⟨none, [], false, false⟩ [0x01, 0x77] =
      Except.error () := by
  rfl

/-- C8: with `read_cellv` set to the string "false" in the configuration
(the repository's own convention for a disabled flag, cf. `getboolean`
used for `enable_polling` and the test configs), `fetch_next` after the
basic fetch still arms a timeout and sends the cell-voltage command,
because line 178 tests Python truthiness of the raw string returned by
`.get` and `"false"` is a truthy nonempty string. -/
theorem C8_cellv_sent_despite_false_config :
    (ew_fetch_next ⟨"C", some "false", false, 10⟩ ⟨none, [], true, false⟩).1 =
      [Eff.sleep (1/2), Eff.armTimeout EW_READ_TIMEOUT, Eff.write COMMAND_READ_CELLV] := by
  rfl

/-- C9: the wait before the next poll round equals
`max(1000 ms, interval in ms − elapsed in ms)`: a 2 s round against a
5 s interval waits 3000 ms, a 7 s round waits exactly 1000 ms, and the
wait is always at least 1000 ms, hence positive, never zero or
negative. -/
theorem C9_scheduler_drift_correction (interval : Nat) (s c : Int) :
    wait_time_ms interval s c = max 1000 ((interval : Int) * 1000 - (c - s)) ∧
    1000 ≤ wait_time_ms interval s c ∧
    0 < wait_time_ms interval s c ∧
    wait_time_ms 5 0 2000 = 3000 ∧
    wait_time_ms 5 0 7000 = 1000 := by
  refine ⟨?_, ?_, ?_, by decide, by decide⟩
  · unfold wait_time_ms
    congr 1
    ring
  · exact le_max_left _ _
  · exact lt_of_lt_of_le (by norm_num) (le_max_left _ _)

/-- C10: in the basic-info decoder with the temperature unit configured
as Celsius, the temperature field equals the unsigned 2-byte raw value
at payload offset 23 scaled by 0.1, minus 273.1. -/
theorem C10_temperature_derivation (payload : List Nat) :
    lookupMap (decode_basic_info "C" payload) "temperature" =
      some (Value.num ((bytes_to_uint payload 23 2 : ℚ) * (1/10) - 2731/10)) := by
  have h : lookupMap (decode_basic_info "C" payload) "temperature" =
      some (Value.num (if pystrip "C" = "F"
        then format_temperature (bytes_to_int payload 23 2 false (1/10) - 2731/10)
        else bytes_to_int payload 23 2 false (1/10) - 2731/10)) := rfl
  rw [h, if_neg (by decide)]
  unfold bytes_to_int
  norm_num

/-- C6: `capacity_remaining` and `capacity` are decoded from the same
payload bytes (offset 4, 2 bytes, unsigned, scale 0.01), so the two
fields are always equal, and the derived percentage is exactly 0 when
those bytes decode to zero and exactly 100 otherwise — never an
intermediate value. -/
theorem C6_capacity_duplicate_percentage (tempUnit : String) (payload : List Nat) :
    lookupMap (decode_basic_info tempUnit payload) "capacity_remaining" =
      lookupMap (decode_basic_info tempUnit payload) "capacity" ∧
    (bytes_to_uint payload 4 2 = 0 →
      lookupMap (decode_basic_info tempUnit payload) "percentage" = some (Value.num 0)) ∧
    (bytes_to_uint payload 4 2 ≠ 0 →
      lookupMap (decode_basic_info tempUnit payload) "percentage" = some (Value.num 100)) := by
  have hcap : ∀ r : Nat, (bytes_to_int payload 4 2 false (1/100) = 0 ↔ bytes_to_uint payload 4 2 = 0) := by
    intro _
    unfold bytes_to_int
    norm_num
  refine ⟨rfl, ?_, ?_⟩
  · intro h
    show some (Value.num (if bytes_to_int payload 4 2 false (1/100) = 0 then 0
        else 100 * bytes_to_int payload 4 2 false (1/100) / bytes_to_int payload 4 2 false (1/100))) = _
    rw [if_pos ((hcap 0).mpr h)]
  · intro h
    have hne : bytes_to_int payload 4 2 false (1/100) ≠ 0 := fun hz => h ((hcap 0).mp hz)
    show some (Value.num (if bytes_to_int payload 4 2 false (1/100) = 0 then 0
        else 100 * bytes_to_int payload 4 2 false (1/100) / bytes_to_int payload 4 2 false (1/100))) = _
    rw [if_neg hne, mul_div_assoc, div_self hne, mul_one]

/-- C6 witness: at a concrete basic-info payload whose capacity bytes
decode to 500, the percentage field is exactly 100. -/
theorem C6_capacity_duplicate_percentage_witness :
    lookupMap (decode_basic_info "C" [0, 0, 0, 0, 1, 244]) "percentage" =
      some (Value.num 100) :=
  (C6_capacity_duplicate_percentage "C" [0, 0, 0, 0, 1, 244]).2.2 (by decide)

/-- C7: the percentage computation of line 145, given Python division
fault semantics, never raises: it returns the guarded value
`if capacity = 0 then 0 else 100 * remaining / capacity`, the decoder's
percentage field carries exactly that value, and when the decoded total
capacity is zero both are exactly 0 (the division is behind the failed
guard and is not evaluated). -/
theorem C7_percentage_zero_guard (tempUnit : String) (payload : List Nat) :
    percentage_expr (bytes_to_int payload 4 2 false (1/100)) (bytes_to_int payload 4 2 false (1/100)) =
      Except.ok (if bytes_to_int payload 4 2 false (1/100) = 0 then 0
        else 100 * bytes_to_int payload 4 2 false (1/100) / bytes_to_int payload 4 2 false (1/100)) ∧
    lookupMap (decode_basic_info tempUnit payload) "percentage" =
      some (Value.num (if bytes_to_int payload 4 2 false (1/100) = 0 then 0
        else 100 * bytes_to_int payload 4 2 false (1/100) / bytes_to_int payload 4 2 false (1/100))) ∧
    (bytes_to_uint payload 4 2 = 0 →
      percentage_expr (bytes_to_int payload 4 2 false (1/100)) (bytes_to_int payload 4 2 false (1/100)) =
        Except.ok 0 ∧
      lookupMap (decode_basic_info tempUnit payload) "percentage" = some (Value.num 0)) := by
  have hiff : bytes_to_int payload 4 2 false (1/100) = 0 ↔ bytes_to_uint payload 4 2 = 0 := by
    unfold bytes_to_int
    norm_num
  refine ⟨?_, rfl, ?_⟩
  · unfold percentage_expr pydiv
    by_cases hc : bytes_to_int payload 4 2 false (1/100) = 0
    · rw [if_pos hc, if_pos hc]
    · rw [if_neg hc, if_neg hc, if_neg hc]
  · intro h
    have hc := hiff.mpr h
    constructor
    · unfold percentage_expr
      rw [if_pos hc]
    · show some (Value.num (if bytes_to_int payload 4 2 false (1/100) = 0 then 0
          else 100 * bytes_to_int payload 4 2 false (1/100) / bytes_to_int payload 4 2 false (1/100))) = _
      rw [if_pos hc]

/-- C7 witness: at the empty payload (capacity bytes decode to 0) the
percentage expression evaluates without a division fault to 0 and the
decoded percentage field is 0. -/
theorem C7_percentage_zero_guard_witness :
    percentage_expr (bytes_to_int [] 4 2 false (1/100)) (bytes_to_int [] 4 2 false (1/100)) =
      Except.ok 0 ∧
    lookupMap (decode_basic_info "C" []) "percentage" = some (Value.num 0) :=
  (C7_percentage_zero_guard "C" []).2.2 (by decide)

/-- The parse gate fires only for operation byte `READ_SUCCESS` with an
in-range section whose parser is set and whose length matches. -/
lemma section_parse_result_isSome {st : BCState} {op : Nat} {response : List Nat}
    (h : (section_parse_result st op response).isSome) :
    op = READ_SUCCESS ∧ ∃ sec, st.sections[st.sectionIndex]? = some sec ∧
      sec.parseFn.isSome ∧ sec.words * 2 + 5 = response.length := by
  unfold section_parse_result at h
  rcases hs : st.sections[st.sectionIndex]? with _ | sec
  · rw [hs] at h; simp at h
  · rw [hs] at h
    simp only [Option.some_bind] at h
    rcases hp : sec.parseFn with _ | p
    · rw [hp] at h; simp at h
    · rw [hp] at h
      simp only [Option.some_bind] at h
      by_cases hc : op = READ_SUCCESS ∧ sec.words * 2 + 5 = response.length
      · exact ⟨hc.1, sec, rfl, by rw [hp]; rfl, hc.2⟩
      · rw [if_neg hc] at h; simp at h

/-- The parse gate yields nothing when the operation byte is not
`READ_SUCCESS` (in particular for `READ_ERROR`). -/
lemma section_parse_result_of_ne {st : BCState} {op : Nat} {response : List Nat}
    (h : op ≠ READ_SUCCESS) : section_parse_result st op response = none := by
  unfold section_parse_result
  rcases hs : st.sections[st.sectionIndex]? with _ | sec
  · rfl
  · simp only [Option.some_bind]
    rcases hp : sec.parseFn with _ | p
    · rfl
    · simp only [Option.some_bind]
      rw [if_neg (fun hc => h hc.1)]

/-- The parse gate yields nothing when the frame length does not equal
`words * 2 + 5` for the current section, whatever the operation byte. -/
lemma section_parse_result_of_length_mismatch {st : BCState} {op : Nat} {response : List Nat}
    {sec : BCSection} (hs : st.sections[st.sectionIndex]? = some sec)
    (hlen : sec.words * 2 + 5 ≠ response.length) :
    section_parse_result st op response = none := by
  unfold section_parse_result
  rw [hs]
  simp only [Option.some_bind]
  rcases hp : sec.parseFn with _ | p
  · rfl
  · simp only [Option.some_bind]
    rw [if_neg (fun hc => hlen hc.2)]

/-- When the operation byte is 3 or 131 but the parse gate yields
nothing, the response is a failed section and the sequencer still
completes the cycle on the last section or advances to the next one. -/
lemma base_failed_section_step (cfg : BCConfig) (st : BCState) (response : List Nat)
    (hop : bytes_to_uint response 1 1 = READ_SUCCESS ∨ bytes_to_uint response 1 1 = READ_ERROR)
    (hpn : section_parse_result st (bytes_to_uint response 1 1) response = none) :
    (st.sections.length - 1 ≤ st.sectionIndex →
      (base_on_data_received cfg st response).outcome = SectionOutcome.failedComplete ∧
      (base_on_data_received cfg st response).state.sectionIndex = 0) ∧
    (st.sectionIndex < st.sections.length - 1 →
      (base_on_data_received cfg st response).outcome = SectionOutcome.failedAdvance ∧
      (base_on_data_received cfg st response).state.sectionIndex = st.sectionIndex + 1) := by
  constructor
  · intro hcomp
    unfold base_on_data_received
    rw [if_pos hop, if_pos hcomp, hpn]
    exact ⟨rfl, rfl⟩
  · intro hadv
    unfold base_on_data_received
    rw [if_pos hop, if_neg (not_le.mpr hadv), hpn]
    exact ⟨rfl, rfl⟩

/-- C2 (amended): in `BaseClient.on_data_received` the section parser is
invoked only when the operation byte equals 3 and the frame length
equals `words*2+5` (with the index in range and the parser set); a frame
with operation byte 131, and likewise an operation-3 frame whose length
does not equal `words*2+5` for the current section, is treated as a
failed section after which the sequencer advances (or completes the
cycle on the last section); but a frame with any other operation byte is
logged as unknown and leaves the sequencer completely unchanged — it
neither advances nor completes nor aborts. -/
theorem C2_response_classification (cfg : BCConfig) (st : BCState) (response : List Nat) :
    ((base_on_data_received cfg st response).outcome = SectionOutcome.parsedAdvance ∨
      (base_on_data_received cfg st response).outcome = SectionOutcome.parsedComplete →
      bytes_to_uint response 1 1 = READ_SUCCESS ∧
      ∃ sec, st.sections[st.sectionIndex]? = some sec ∧ sec.parseFn.isSome ∧
        sec.words * 2 + 5 = response.length) ∧
    (bytes_to_uint response 1 1 = READ_ERROR →
      (st.sections.length - 1 ≤ st.sectionIndex →
        (base_on_data_received cfg st response).outcome = SectionOutcome.failedComplete ∧
        (base_on_data_received cfg st response).state.sectionIndex = 0) ∧
      (st.sectionIndex < st.sections.length - 1 →
        (base_on_data_received cfg st response).outcome = SectionOutcome.failedAdvance ∧
        (base_on_data_received cfg st response).state.sectionIndex = st.sectionIndex + 1)) ∧
    (bytes_to_uint response 1 1 = READ_SUCCESS →
      ∀ sec, st.sections[st.sectionIndex]? = some sec →
        sec.words * 2 + 5 ≠ response.length →
        (st.sections.length - 1 ≤ st.sectionIndex →
          (base_on_data_received cfg st response).outcome = SectionOutcome.failedComplete ∧
          (base_on_data_received cfg st response).state.sectionIndex = 0) ∧
        (st.sectionIndex < st.sections.length - 1 →
          (base_on_data_received cfg st response).outcome = SectionOutcome.failedAdvance ∧
          (base_on_data_received cfg st response).state.sectionIndex = st.sectionIndex + 1)) ∧
    (bytes_to_uint response 1 1 ≠ READ_SUCCESS → bytes_to_uint response 1 1 ≠ READ_ERROR →
      base_on_data_received cfg st response =
        ⟨st, SectionOutcome.unknownIgnored, if cfg.armed then [Eff.cancelTimeout] else []⟩) := by
  refine ⟨?_, ?_, ?_, ?_⟩
  · intro h
    by_cases hop : bytes_to_uint response 1 1 = READ_SUCCESS ∨ bytes_to_uint response 1 1 = READ_ERROR
    · by_cases hps : (section_parse_result st (bytes_to_uint response 1 1) response).isSome
      · exact section_parse_result_isSome hps
      · exfalso
        unfold base_on_data_received at h
        rw [if_pos hop] at h
        by_cases hcomp : st.sections.length - 1 ≤ st.sectionIndex
        · rw [if_pos hcomp] at h
          simp only [Bool.not_eq_true] at hps
          rw [hps] at h
          simp at h
        · rw [if_neg hcomp] at h
          simp only [Bool.not_eq_true] at hps
          rw [hps] at h
          simp at h
    · exfalso
      unfold base_on_data_received at h
      rw [if_neg hop] at h
      simp at h
  · intro hop
    exact base_failed_section_step cfg st response (Or.inr hop)
      (section_parse_result_of_ne (by rw [hop]; decide))
  · intro hop sec hs hlen
    exact base_failed_section_step cfg st response (Or.inl hop)
      (section_parse_result_of_length_mismatch hs hlen)
  · intro h3 h131
    unfold base_on_data_received
    rw [if_neg (by simp [h3, h131])]

/-- C2 counterexample: a response with operation byte 6 (neither 3 nor
131) received at section 0 of a 2-section cycle is not treated as a
failed section: the sequencer does not advance (index stays 0) and does
not complete; it only logs the unknown operation. -/
theorem C2_response_classification_counterexample :
    (base_on_data_received ⟨some 1, "A", "RenogyClient", false, 10, true⟩
        ⟨[⟨5000, 8, some (fun _ => [])⟩, ⟨5042, 1, some (fun _ => [])⟩], 0, []⟩
        [1, 6, 0, 0, 0]).outcome = SectionOutcome.unknownIgnored ∧
    (base_on_data_received ⟨some 1, "A", "RenogyClient", false, 10, true⟩
        ⟨[⟨5000, 8, some (fun _ => [])⟩, ⟨5042, 1, some (fun _ => [])⟩], 0, []⟩
        [1, 6, 0, 0, 0]).state.sectionIndex = 0 :=
  ⟨rfl, rfl⟩

/-- C2 witness: at section 0 of a 2-section cycle (8-word section, so a
success frame must be 21 bytes long), a device-error frame (operation
byte 131) and a 5-byte operation-3 frame with mismatched length are both
classified as failed sections and the sequencer advances to section 1. -/
theorem C2_response_classification_witness :
    ((base_on_data_received ⟨some 1, "A", "RenogyClient", false, 10, true⟩
        ⟨[⟨5000, 8, some (fun _ => [])⟩, ⟨5042, 1, some (fun _ => [])⟩], 0, []⟩
        [1, 131, 0, 0, 0]).outcome = SectionOutcome.failedAdvance ∧
      (base_on_data_received ⟨some 1, "A", "RenogyClient", false, 10, true⟩
        ⟨[⟨5000, 8, some (fun _ => [])⟩, ⟨5042, 1, some (fun _ => [])⟩], 0, []⟩
        [1, 131, 0, 0, 0]).state.sectionIndex = 0 + 1) ∧
    ((base_on_data_received ⟨some 1, "A", "RenogyClient", false, 10, true⟩
        ⟨[⟨5000, 8, some (fun _ => [])⟩, ⟨5042, 1, some (fun _ => [])⟩], 0, []⟩
        [1, 3, 0, 0, 0]).outcome = SectionOutcome.failedAdvance ∧
      (base_on_data_received ⟨some 1, "A", "RenogyClient", false, 10, true⟩
        ⟨[⟨5000, 8, some (fun _ => [])⟩, ⟨5042, 1, some (fun _ => [])⟩], 0, []⟩
        [1, 3, 0, 0, 0]).state.sectionIndex = 0 + 1) :=
  ⟨((C2_response_classification ⟨some 1, "A", "RenogyClient", false, 10, true⟩
      ⟨[⟨5000, 8, some (fun _ => [])⟩, ⟨5042, 1, some (fun _ => [])⟩], 0, []⟩
      [1, 131, 0, 0, 0]).2.1 (by decide)).2 (by decide),
   ((C2_response_classification ⟨some 1, "A", "RenogyClient", false, 10, true⟩
      ⟨[⟨5000, 8, some (fun _ => [])⟩, ⟨5042, 1, some (fun _ => [])⟩], 0, []⟩
      [1, 3, 0, 0, 0]).2.2.1 (by decide) ⟨5000, 8, some (fun _ => [])⟩ rfl
      (by decide)).2 (by decide)⟩

/-- C3 (amended): `BaseClient.read_section` arms the 15 s per-request
timeout and only then writes the read request, and (when a timeout is
pending) `BaseClient.on_data_received` disarms it as its very first
action; but the `RenogyClient.read_section` override writes read
requests without ever arming a timeout, so its requests are in flight
with no armed deadline. -/
theorem C3_timeout_discipline (cfg : BCConfig) (st : BCState) (response : List Nat)
    (did : Nat) (sec : BCSection)
    (h1 : cfg.deviceId = some did)
    (h2 : st.sections[st.sectionIndex]? = some sec) :
    base_read_section cfg st =
      [Eff.armTimeout BC_READ_TIMEOUT,
       Eff.write (create_generic_read_request did 3 sec.register sec.words)] ∧
    (cfg.armed = true →
      (base_on_data_received cfg st response).effs.head? = some Eff.cancelTimeout) ∧
    (∀ n, Eff.armTimeout n ∉ renogy_read_section cfg st) := by
  have hlen : st.sections.length ≠ 0 := by
    intro h0
    rw [List.getElem?_eq_none (by omega)] at h2
    exact Option.noConfusion h2
  have hguard : ¬(cfg.deviceId = none ∨ st.sections.length = 0) := by
    rintro (h | h)
    · rw [h1] at h; exact Option.noConfusion h
    · exact hlen h
  refine ⟨?_, ?_, ?_⟩
  · unfold base_read_section
    rw [if_neg hguard, h1, h2]
  · intro ha
    unfold base_on_data_received
    rw [ha]
    by_cases hop : bytes_to_uint response 1 1 = READ_SUCCESS ∨ bytes_to_uint response 1 1 = READ_ERROR
    · rw [if_pos hop]
      by_cases hcomp : st.sections.length - 1 ≤ st.sectionIndex
      · rw [if_pos hcomp]; rfl
      · rw [if_neg hcomp]; rfl
    · rw [if_neg hop]; rfl
  · intro n
    unfold renogy_read_section
    split
    · simp
    · split
      · simp
      · simp

/-- C3 counterexample: at a concrete single-section state,
`RenogyClient.read_section` writes the read request but its effect trace
contains no timeout arming at all — the request is issued with no armed
deadline. -/
theorem C3_timeout_discipline_counterexample :
    renogy_read_section ⟨some 1, "A", "RenogyClient", false, 10, false⟩
        ⟨[⟨5000, 8, none⟩], 0, []⟩ =
      [Eff.write (create_generic_read_request 1 3 5000 8)] ∧
    Eff.armTimeout BC_READ_TIMEOUT ∉
      renogy_read_section ⟨some 1, "A", "RenogyClient", false, 10, false⟩
        ⟨[⟨5000, 8, none⟩], 0, []⟩ :=
  ⟨rfl, by decide⟩

/-- C3 witness: at a concrete single-section state, `BaseClient`'s
sequencer arms the timeout before the write, and with a pending timeout
its response handler disarms first; the Renogy override's trace for the
same state contains no arming. -/
theorem C3_timeout_discipline_witness :
    base_read_section ⟨some 1, "A", "BaseClient", false, 10, true⟩ ⟨[⟨5000, 8, none⟩], 0, []⟩ =
      [Eff.armTimeout BC_READ_TIMEOUT, Eff.write (create_generic_read_request 1 3 5000 8)] ∧
    (base_on_data_received ⟨some 1, "A", "BaseClient", false, 10, true⟩
        ⟨[⟨5000, 8, none⟩], 0, []⟩ [1, 3, 0, 0, 0]).effs.head? = some Eff.cancelTimeout ∧
    Eff.armTimeout 15 ∉
      renogy_read_section ⟨some 1, "A", "BaseClient", false, 10, true⟩ ⟨[⟨5000, 8, none⟩], 0, []⟩ :=
  ⟨(C3_timeout_discipline ⟨some 1, "A", "BaseClient", false, 10, true⟩
      ⟨[⟨5000, 8, none⟩], 0, []⟩ [1, 3, 0, 0, 0] 1 ⟨5000, 8, none⟩ rfl rfl).1,
   (C3_timeout_discipline ⟨some 1, "A", "BaseClient", false, 10, true⟩
      ⟨[⟨5000, 8, none⟩], 0, []⟩ [1, 3, 0, 0, 0] 1 ⟨5000, 8, none⟩ rfl rfl).2.1 rfl,
   (C3_timeout_discipline ⟨some 1, "A", "BaseClient", false, 10, true⟩
      ⟨[⟨5000, 8, none⟩], 0, []⟩ [1, 3, 0, 0, 0] 1 ⟨5000, 8, none⟩ rfl rfl).2.2 15⟩

/-- C4 (amended): the cycle state resets to its initial value (index 0,
empty map) on completion of the last section; a mid-cycle response never
resets it (the index advances to a nonzero value); but on a read timeout
the state is not reset — `on_read_timeout` only reports the error and
resolves the session future, leaving index and result map untouched. -/
theorem C4_cycle_boundary_reset (cfg : BCConfig) (st : BCState) (response : List Nat)
    (hop : bytes_to_uint response 1 1 = READ_SUCCESS ∨ bytes_to_uint response 1 1 = READ_ERROR) :
    (st.sections.length - 1 ≤ st.sectionIndex →
      (base_on_data_received cfg st response).state.sectionIndex = 0 ∧
      (base_on_data_received cfg st response).state.data = []) ∧
    (st.sectionIndex < st.sections.length - 1 →
      (base_on_data_received cfg st response).state.sectionIndex = st.sectionIndex + 1 ∧
      (base_on_data_received cfg st response).state.sectionIndex ≠ 0) ∧
    base_on_read_timeout st = (st, [Eff.logError, Eff.errorCallback, Eff.resolveFuture]) := by
  refine ⟨?_, ?_, rfl⟩
  · intro hcomp
    unfold base_on_data_received
    rw [if_pos hop, if_pos hcomp]
    exact ⟨rfl, rfl⟩
  · intro hadv
    unfold base_on_data_received
    rw [if_pos hop, if_neg (not_le.mpr hadv)]
    exact ⟨rfl, Nat.succ_ne_zero _⟩

/-- C4 counterexample: a read timeout arriving mid-cycle (index 2 of a
3-section cycle, partial result map) does not reset the cycle state:
the index is still 2 (not 0) and the partial map survives. -/
theorem C4_cycle_boundary_reset_counterexample :
    (base_on_read_timeout ⟨[⟨5000, 8, none⟩, ⟨5042, 1, none⟩, ⟨256, 3, none⟩], 2,
        [("voltage", Value.num 1)]⟩).1.sectionIndex = 2 ∧
    (base_on_read_timeout ⟨[⟨5000, 8, none⟩, ⟨5042, 1, none⟩, ⟨256, 3, none⟩], 2,
        [("voltage", Value.num 1)]⟩).1.data = [("voltage", Value.num 1)] :=
  ⟨rfl, rfl⟩

/-- C4 witness: at a concrete last-section response the cycle state
resets to index 0 and an empty map, and at a concrete mid-cycle response
it advances to the nonzero index 1 instead of resetting. -/
theorem C4_cycle_boundary_reset_witness :
    ((base_on_data_received ⟨some 1, "A", "RenogyClient", false, 10, true⟩
        ⟨[⟨5000, 8, none⟩, ⟨5042, 1, none⟩], 1, [("voltage", Value.num 1)]⟩
        [1, 3, 0, 0, 0]).state.sectionIndex = 0 ∧
      (base_on_data_received ⟨some 1, "A", "RenogyClient", false, 10, true⟩
        ⟨[⟨5000, 8, none⟩, ⟨5042, 1, none⟩], 1, [("voltage", Value.num 1)]⟩
        [1, 3, 0, 0, 0]).state.data = []) ∧
    ((base_on_data_received ⟨some 1, "A", "RenogyClient", false, 10, true⟩
        ⟨[⟨5000, 8, none⟩, ⟨5042, 1, none⟩], 0, []⟩
        [1, 3, 0, 0, 0]).state.sectionIndex = 0 + 1 ∧
      (base_on_data_received ⟨some 1, "A", "RenogyClient", false, 10, true⟩
        ⟨[⟨5000, 8, none⟩, ⟨5042, 1, none⟩], 0, []⟩
        [1, 3, 0, 0, 0]).state.sectionIndex ≠ 0) :=
  ⟨(C4_cycle_boundary_reset ⟨some 1, "A", "RenogyClient", false, 10, true⟩
      ⟨[⟨5000, 8, none⟩, ⟨5042, 1, none⟩], 1, [("voltage", Value.num 1)]⟩
      [1, 3, 0, 0, 0] (Or.inl (by decide))).1 (by decide),
   (C4_cycle_boundary_reset ⟨some 1, "A", "RenogyClient", false, 10, true⟩
      ⟨[⟨5000, 8, none⟩, ⟨5042, 1, none⟩], 0, []⟩
      [1, 3, 0, 0, 0] (Or.inl (by decide))).2.1 (by decide)⟩

/-- Completing a frame only reads the accumulated data map and fetched
flags of the state, never the frame buffer field, which it overwrites. -/
lemma ew_complete_frame_irrelevant (cfg : EWConfig) (fr1 fr2 : Option (List Nat))
    (d : DataMap) (fb fc : Bool) (f : List Nat) :
    ew_complete cfg ⟨fr1, d, fb, fc⟩ f = ew_complete cfg ⟨fr2, d, fb, fc⟩ f := rfl

/-- A delivery starting with the header marker and not ending with the
end marker starts a fresh frame buffer and hands nothing on. -/
lemma ew_step_start_noend (cfg : EWConfig) (st : EWState) (response : List Nat) (l : Nat)
    (hh : response.head? = some FRAME_HEADER)
    (hl : response.getLast? = some l) (hne : l ≠ FRAME_END) :
    ew_on_data_received cfg st response =
      Except.ok ⟨⟨some response, st.data, st.fetched_basics, st.fetched_cellv⟩, none,
        [Eff.cancelTimeout]⟩ := by
  unfold ew_on_data_received
  rw [hh, hl]
  simp [hne]

/-- A delivery starting with the header marker and ending with the end
marker both starts and completes a frame in the same call. -/
lemma ew_step_start_end (cfg : EWConfig) (st : EWState) (response : List Nat)
    (hh : response.head? = some FRAME_HEADER)
    (hl : response.getLast? = some FRAME_END) :
    ew_on_data_received cfg st response = Except.ok (ew_complete cfg st response) := by
  unfold ew_on_data_received
  rw [hh, hl]
  simp

/-- A non-header delivery not ending with the end marker, received while
frame `g` is buffered, is appended to the buffer and hands nothing on. -/
lemma ew_step_append_noend (cfg : EWConfig) (st : EWState) (response : List Nat)
    (x l : Nat) (g : List Nat)
    (hh : response.head? = some x) (hx : x ≠ FRAME_HEADER) (hf : st.frame = some g)
    (hl : response.getLast? = some l) (hne : l ≠ FRAME_END) :
    ew_on_data_received cfg st response =
      Except.ok ⟨⟨some (g ++ response), st.data, st.fetched_basics, st.fetched_cellv⟩, none,
        [Eff.cancelTimeout]⟩ := by
  unfold ew_on_data_received
  rw [hh, hl]
  simp [hx, hf, hne]

/-- A non-header delivery ending with the end marker, received while
frame `g` is buffered, completes the frame `g ++ response`. -/
lemma ew_step_append_end (cfg : EWConfig) (st : EWState) (response : List Nat)
    (x : Nat) (g : List Nat)
    (hh : response.head? = some x) (hx : x ≠ FRAME_HEADER) (hf : st.frame = some g)
    (hl : response.getLast? = some FRAME_END) :
    ew_on_data_received cfg st response = Except.ok (ew_complete cfg st (g ++ response)) := by
  unfold ew_on_data_received
  rw [hh, hl]
  simp [hx, hf]

/-- C5: a well-formed vendor frame delivered whole decodes identically to
the same bytes delivered as three fragments — a header fragment, a
middle fragment and a tail fragment ending with the end marker (per the
data model, continuation fragments lack the header marker, and the tail
is the fragment carrying the end marker): the runs produce the same
final client state (including the same fields in the result map) and
hand the same (operation, declaredLength, payload) triple to the frame
decoder. -/
theorem C5_fragmentation_equivalence (cfg : EWConfig) (d0 : DataMap) (fb fc : Bool)
    (a b c : List Nat)
    (hah : a.head? = some FRAME_HEADER)
    (hal : a.getLast? ≠ some FRAME_END)
    (hbh : b.head? ≠ some FRAME_HEADER) (hbn : b ≠ [])
    (hbl : b.getLast? ≠ some FRAME_END)
    (hch : c.head? ≠ some FRAME_HEADER) (hcn : c ≠ [])
    (hcl : c.getLast? = some FRAME_END) :
    ew_run cfg ⟨none, d0, fb, fc⟩ [a ++ b ++ c] =
      ew_run cfg ⟨none, d0, fb, fc⟩ [a, b, c] := by
  have han : a ≠ [] := by
    intro h
    rw [h] at hah
    exact Option.noConfusion hah
  obtain ⟨la, hla⟩ : ∃ la, a.getLast? = some la := by
    rcases e : a.getLast? with _ | la
    · exact absurd (List.getLast?_eq_none_iff.mp e) han
    · exact ⟨la, rfl⟩
  have hlane : la ≠ FRAME_END := by
    intro h
    rw [h] at hla
    exact hal hla
  obtain ⟨lb, hlb⟩ : ∃ lb, b.getLast? = some lb := by
    rcases e : b.getLast? with _ | lb
    · exact absurd (List.getLast?_eq_none_iff.mp e) hbn
    · exact ⟨lb, rfl⟩
  have hlbne : lb ≠ FRAME_END := by
    intro h
    rw [h] at hlb
    exact hbl hlb
  obtain ⟨xb, hxb⟩ : ∃ xb, b.head? = some xb := by
    cases b with
    | nil => exact absurd rfl hbn
    | cons y ys => exact ⟨y, rfl⟩
  have hxbne : xb ≠ FRAME_HEADER := by
    intro h
    rw [hxb, h] at hbh
    exact hbh rfl
  obtain ⟨xc, hxc⟩ : ∃ xc, c.head? = some xc := by
    cases c with
    | nil => exact absurd rfl hcn
    | cons y ys => exact ⟨y, rfl⟩
  have hxcne : xc ≠ FRAME_HEADER := by
    intro h
    rw [hxc, h] at hch
    exact hch rfl
  have habc_h : (a ++ b ++ c).head? = some FRAME_HEADER := by
    rw [List.head?_append, List.head?_append, hah]
    rfl
  have habc_l : (a ++ b ++ c).getLast? = some FRAME_END := by
    rw [List.getLast?_append, hcl]
    rfl
  have s_single := ew_step_start_end cfg ⟨none, d0, fb, fc⟩ (a ++ b ++ c) habc_h habc_l
  have s1 := ew_step_start_noend cfg ⟨none, d0, fb, fc⟩ a la hah hla hlane
  have s2 := ew_step_append_noend cfg ⟨some a, d0, fb, fc⟩ b xb lb a hxb hxbne rfl hlb hlbne
  have s3 := ew_step_append_end cfg ⟨some (a ++ b), d0, fb, fc⟩ c xc (a ++ b) hxc hxcne rfl hcl
  simp only [ew_run, s_single, s1, s2, s3]
  rw [ew_complete_frame_irrelevant cfg none (some (a ++ b)) d0 fb fc (a ++ b ++ c)]
  simp

/-- C5 witness: a concrete 11-byte basic-info frame delivered whole and
delivered as the three fragments `[0xDD,3,0,4,1]`, `[2]`,
`[3,4,0,0,0x77]` produce identical runs. -/
theorem C5_fragmentation_equivalence_witness :
    ew_run ⟨"C", none, false, 0⟩ ⟨none, [], false, false⟩
        [[221, 3, 0, 4, 1] ++ [2] ++ [3, 4, 0, 0, 119]] =
      ew_run ⟨"C", none, false, 0⟩ ⟨none, [], false, false⟩
        [[221, 3, 0, 4, 1], [2], [3, 4, 0, 0, 119]] :=
  C5_fragmentation_equivalence ⟨"C", none, false, 0⟩ [] false false
    [221, 3, 0, 4, 1] [2] [3, 4, 0, 0, 119]
    (by decide) (by decide) (by decide) (by decide) (by decide) (by decide) (by decide)
    (by decide)

end RenogyBT
